import Mathlib

/-!
# Verification of the MotionBlinds BLE integration

Shallow embedding of the protocol core of the `ha-motionblinds_ble` repository:
`motionblinds_ble/crypt.py`, `motionblinds_ble/device.py`,
`motionblinds_ble/const.py`, and the Home-Assistant layer `cover.py` /
`const.py`.  Pure computations become Lean functions, stateful code becomes
explicit state passing, fallible code returns `Option`/`Except`.
-/

namespace MotionBlinds

set_option maxRecDepth 4000

/-- Python `round(num / den)` for an exact rational `num / den` with `den > 0`:
round half to even (banker's rounding).  The source applies `round` to a float
quotient; for the byte-sized protocol values (`100 * angle / 180`,
`180 * percentage / 100`) the float quotient never falls close enough to a
rounding boundary for the double approximation to flip the result, so exact
rational rounding is faithful. -/
def pyRound (num den : Int) : Int :=
  let q := Int.fdiv num den
  let r := num - q * den
  if 2 * r < den then q
  else if den < 2 * r then q + 1
  else if q % 2 = 0 then q else q + 1

/-- The sixteen lowercase hex digits, as produced by Python `hex`. -/
def hexDigit (d : Nat) : Char := "0123456789abcdef".data.getD d '0'

/-- Little-endian hex digits of `n`, with explicit fuel so that the recursion
is structural (the kernel can evaluate it).  `fuel ≥ n` always suffices, since
`n` has at most `n` hex digits. -/
def toHexAux (fuel n : Nat) : List Char :=
  match fuel with
  | 0 => []
  | fuel + 1 => if n = 0 then [] else hexDigit (n % 16) :: toHexAux fuel (n / 16)

/-- Python `hex(n)[2:]` for `n ≥ 0`: lowercase hex representation, no `0x`
prefix, and `"0"` for zero. -/
def toHexString (n : Nat) : String :=
  if n = 0 then "0" else ⟨(toHexAux n n).reverse⟩

/-- Python `str.zfill`: left-pad with `'0'` up to width `w`. -/
def zfill (s : String) (w : Nat) : String :=
  ⟨List.replicate (w - s.length) '0'⟩ ++ s

/-- `MotionCrypt._format_hex` (crypt.py):
`hex(number & 2 ** (number_of_chars * 4) - 1)[2:].zfill(number_of_chars)`.
For a nonnegative `number`, masking with `2 ^ k - 1` equals `% 2 ^ k`. -/
def format_hex (number : Nat) (number_of_chars : Nat := 2) : String :=
  zfill (toHexString (number % 2 ^ (number_of_chars * 4))) number_of_chars

/-- Hex strings produced by `toHexString` are at most `k` characters long when
the value is below `16 ^ k`. -/
theorem length_toHexAux_le {fuel n k : Nat} (h : n < 16 ^ k) :
    (toHexAux fuel n).length ≤ k := by
  induction fuel generalizing n k with
  | zero => simp [toHexAux]
  | succ fuel ih =>
    simp only [toHexAux]
    split
    · simp
    · have hk : k ≠ 0 := by
        rintro rfl
        simp only [pow_zero, Nat.lt_one_iff] at h
        simp_all
      obtain ⟨k, rfl⟩ := Nat.exists_eq_succ_of_ne_zero hk
      have hdiv : n / 16 < 16 ^ k := by
        rw [Nat.div_lt_iff_lt_mul (by norm_num)]
        calc n < 16 ^ (k + 1) := h
          _ = 16 ^ k * 16 := by ring
      simpa using Nat.succ_le_succ (ih hdiv)

theorem length_toHexString_le {n k : Nat} (hk : 1 ≤ k) (h : n < 16 ^ k) :
    (toHexString n).length ≤ k := by
  unfold toHexString
  split
  · simpa using hk
  · simp only [String.length_mk, List.length_reverse]
    exact length_toHexAux_le h

/-- `_format_hex` always produces exactly `number_of_chars` characters (the
masking keeps the value below `16 ^ number_of_chars`, and `zfill` pads up). -/
theorem length_format_hex (number : Nat) {k : Nat} (hk : 1 ≤ k) :
    (format_hex number k).length = k := by
  have hlt : number % 2 ^ (k * 4) < 16 ^ k := by
    have h2 : (2 : Nat) ^ (k * 4) = 16 ^ k := by
      rw [Nat.mul_comm, Nat.pow_mul]
    rw [← h2]
    exact Nat.mod_lt _ (by positivity)
  have hle := length_toHexString_le hk hlt
  unfold format_hex zfill
  simp only [String.length_append, String.length_mk, List.length_replicate]
  omega

theorem length_format_hex_two (n : Nat) : (format_hex n 2).length = 2 :=
  length_format_hex n (by norm_num)

theorem length_format_hex_four (n : Nat) : (format_hex n 4).length = 4 :=
  length_format_hex n (by norm_num)

/-- A civil datetime as produced by Python `datetime.datetime.now(tz)`: the
fields read by `MotionCrypt.get_time`. -/
structure PyDateTime where
  year : Nat
  month : Nat
  day : Nat
  hour : Nat
  minute : Nat
  second : Nat
  microsecond : Nat
deriving DecidableEq

/-- `MotionCrypt.get_time` (crypt.py): raises `TimezoneNotSetException` when no
timezone is configured, otherwise concatenates `_format_hex` of the 2-digit
year, and of month, day, hour, minute, second (2 hex chars each) and of
`microsecond // 1000` (4 hex chars).  The ambient time `now` is a parameter. -/
def get_time (tz : Option String) (now : PyDateTime) : Except String String :=
  match tz with
  | none => .error "Motion encryption requires a valid timezone."
  | some _ =>
    let year := now.year % 100
    let month := now.month
    let day := now.day
    let hour := now.hour
    let minute := now.minute
    let second := now.second
    let microsecond := now.microsecond / 1000
    let year_hex := format_hex year
    let month_hex := format_hex month
    let day_hex := format_hex day
    let hour_hex := format_hex hour
    let minute_hex := format_hex minute
    let second_hex := format_hex second
    let microsecond_hex := format_hex microsecond 4
    .ok (year_hex ++ month_hex ++ day_hex ++ hour_hex ++ minute_hex ++
      second_hex ++ microsecond_hex)

/-- C2 counterexample: with a timezone configured, at the concrete instant
2024-01-02 03:04:05.006789 the generated timestamp string has 16 characters,
not 14 as claimed. -/
theorem C2_counterexample :
    (get_time (some "Europe/Amsterdam") ⟨2024, 1, 2, 3, 4, 5, 6789⟩).map
      String.length = .ok 16 ∧ (16 : Nat) ≠ 14 := by
  constructor
  · rfl
  · decide

/-- C2 (amended): for every invocation made after a timezone has been
configured, `MotionCrypt.get_time` returns a string of exactly 16 hexadecimal
characters (six 2-hex-char fields plus one 4-hex-char millisecond field). -/
theorem C2_get_time_length (tzName : String) (now : PyDateTime) :
    ∃ s, get_time (some tzName) now = .ok s ∧ s.length = 16 := by
  refine ⟨_, rfl, ?_⟩
  simp [String.length_append, length_format_hex_two, length_format_hex_four]

/-- `angle_percentage = round(100 * angle / 180)`
(device.py, `_notification_callback`). -/
def angle_to_percent (angle : Int) : Int := pyRound (100 * angle) 180

/-- `angle = round(180 * percentage / 100)` (device.py, `percentage_tilt`). -/
def percent_to_angle (percentage : Int) : Int := pyRound (180 * percentage) 100

/-- C10: with `percent(angle) = round(100 * angle / 180)` and
`angle(percent) = round(180 * percent / 100)` as implemented, for every angle
`a` in `[0, 180]` the round-trip satisfies `|angle(percent(a)) - a| ≤ 1`, and
for every percent `p` in `[0, 100]`, `|percent(angle(p)) - p| ≤ 1`. -/
theorem C10_angle_percent_roundtrip :
    (∀ a : Nat, a ≤ 180 → (percent_to_angle (angle_to_percent a) - a).natAbs ≤ 1) ∧
    (∀ p : Nat, p ≤ 100 → (angle_to_percent (percent_to_angle p) - p).natAbs ≤ 1) := by
  constructor <;> decide

/-- Witness for C10 at the concrete angle 90 and percent 50. -/
theorem C10_witness :
    ((90 : Nat) ≤ 180 ∧ (percent_to_angle (angle_to_percent 90) - 90).natAbs ≤ 1) ∧
    ((50 : Nat) ≤ 100 ∧ (angle_to_percent (percent_to_angle 50) - 50).natAbs ≤ 1) :=
  ⟨⟨by decide, C10_angle_percent_roundtrip.1 90 (by decide)⟩,
   ⟨by decide, C10_angle_percent_roundtrip.2 50 (by decide)⟩⟩

namespace MotionNotificationType

/-- `MotionNotificationType.PERCENT` (motionblinds_ble/const.py). -/
def PERCENT : String := "07040402"

/-- `MotionNotificationType.RUNNING` (motionblinds_ble/const.py). -/
def RUNNING : String := "070404021e"

/-- `MotionNotificationType.READY` (motionblinds_ble/const.py). -/
def READY : String := "0201c0"

/-- `MotionNotificationType.STATUS` (motionblinds_ble/const.py). -/
def STATUS : String := "12040f02"

end MotionNotificationType

/-- Which of the device callbacks are registered (not `None`):
`_position_callback`, `_running_callback`, `_status_callback` (device.py). -/
structure RegisteredCallbacks where
  position : Bool
  running : Bool
  status : Bool

/-- The two endstop booleans decoded by `MotionPositionInfo` (device.py). -/
structure EndPositionInfo where
  UP : Bool
  DOWN : Bool
deriving DecidableEq

/-- `MotionPositionInfo.__init__` (device.py): `UP = bool(byte & 0x08)`,
`DOWN = bool(byte & 0x04)`. -/
def MotionPositionInfo (end_positions_byte : Nat) : EndPositionInfo :=
  ⟨end_positions_byte &&& 0x08 != 0, end_positions_byte &&& 0x04 != 0⟩

/-- The branch of the `if/elif` chain in `_notification_callback` that handles
a decrypted message. -/
inductive NotificationBranch
  | percent
  | running
  | status
  | unhandled
deriving DecidableEq

/-- A callback invocation performed by `_notification_callback`. -/
inductive CallbackEvent
  | position (position_percentage : Nat) (angle_percentage : Int)
      (info : EndPositionInfo)
  | running (running_type : Bool)
  | status (position_percentage : Nat) (angle_percentage : Int)
      (battery_percentage : Nat) (speed_level : Nat) (info : EndPositionInfo)
deriving DecidableEq

/-- Python `bytearray.hex()`: each byte as two lowercase hex characters. -/
def bytesToHexChars (bs : List Nat) : List Char :=
  (bs.map fun b => (format_hex b 2).data).flatten

/-- The branch selected by the `if/elif` chain of
`MotionDevice._notification_callback` (device.py): the prefixes are tested in
source order PERCENT, RUNNING, STATUS (via `str.startswith`, rendered here as
`List.isPrefixOf` on the character list), each branch also requiring its
callback to be registered. -/
def notificationBranch (cb : RegisteredCallbacks) (decrypted_message : List Char) :
    NotificationBranch :=
  if MotionNotificationType.PERCENT.data.isPrefixOf decrypted_message ∧ cb.position then
    .percent
  else if MotionNotificationType.RUNNING.data.isPrefixOf decrypted_message ∧ cb.running then
    .running
  else if MotionNotificationType.STATUS.data.isPrefixOf decrypted_message ∧ cb.status then
    .status
  else
    .unhandled

/-- `MotionDevice._notification_callback` (device.py), modelled on the
*decrypted* message bytes: the source receives raw encrypted bytes, decrypts
them to a hex string and re-parses that string into bytes; here the decrypted
bytes are the input and the hex string is recomputed from them (the two views
are inverse hex codings of each other).  Returns the callback invocations
performed, in order.  The RUNNING branch computes
`running_type = decrypted_message_bytes[5] == MotionRunningType.OPENING` (an
int/StrEnum comparison that is always False in Python) but its callback
invocation is commented out in the source
(`# self._running_callback(running_type)`), so it emits no event.  In the
STATUS branch the source converts byte 12 through `MotionSpeedLevel`, which
raises for values outside {1, 2, 3}; it is modelled as the raw byte, which no
claim depends on. -/
def notification_callback (cb : RegisteredCallbacks)
    (decrypted_message_bytes : List Nat) : List CallbackEvent :=
  let decrypted_message := bytesToHexChars decrypted_message_bytes
  if MotionNotificationType.PERCENT.data.isPrefixOf decrypted_message ∧ cb.position then
    let end_position_info := MotionPositionInfo (decrypted_message_bytes.getD 4 0)
    let position_percentage := decrypted_message_bytes.getD 6 0
    let angle := decrypted_message_bytes.getD 7 0
    let angle_percentage := angle_to_percent angle
    [.position position_percentage angle_percentage end_position_info]
  else if MotionNotificationType.RUNNING.data.isPrefixOf decrypted_message ∧ cb.running then
    []
  else if MotionNotificationType.STATUS.data.isPrefixOf decrypted_message ∧ cb.status then
    let position_percentage := decrypted_message_bytes.getD 6 0
    let angle := decrypted_message_bytes.getD 7 0
    let angle_percentage := angle_to_percent angle
    let battery_percentage := decrypted_message_bytes.getD 17 0
    let end_position_info := MotionPositionInfo (decrypted_message_bytes.getD 4 0)
    let speed_level := decrypted_message_bytes.getD 12 0
    [.status position_percentage angle_percentage battery_percentage speed_level
      end_position_info]
  else
    []

/-- C3 counterexample: the decrypted message `070404021e01` starts with the
RUNNING prefix `070404021e`, yet with all callbacks registered it is handled
by the PERCENT branch (tested first in the source), not the RUNNING branch. -/
theorem C3_counterexample :
    MotionNotificationType.RUNNING.data.isPrefixOf "070404021e01".data = true ∧
    notificationBranch ⟨true, true, true⟩ "070404021e01".data =
      NotificationBranch.percent ∧
    NotificationBranch.percent ≠ NotificationBranch.running := by
  decide

/-- C3 (amended): the prefix patterns are matched in fixed source order
PERCENT (`07040402`), RUNNING (`070404021e`), STATUS (`12040f02`) — not
longest-match-first.  A decrypted message starting with the RUNNING prefix is
classified as PERCENT whenever a position callback is registered, and as
RUNNING only when no position callback is registered and a running callback
is. -/
theorem C3_running_prefix_classification (cb : RegisteredCallbacks)
    (msg : List Char)
    (hpre : MotionNotificationType.RUNNING.data.isPrefixOf msg = true) :
    (cb.position = true → notificationBranch cb msg = .percent) ∧
    (cb.position = false → cb.running = true →
      notificationBranch cb msg = .running) := by
  have hp : MotionNotificationType.PERCENT.data.isPrefixOf msg = true := by
    rw [List.isPrefixOf_iff_prefix] at hpre ⊢
    exact List.IsPrefix.trans (by decide) hpre
  constructor
  · intro hpos
    simp [notificationBranch, hp, hpos]
  · intro hpos hrun
    simp [notificationBranch, hp, hpos, hpre, hrun]

/-- Witness for C3 at the concrete message `070404021e01`: with only the
running callback registered the RUNNING branch is selected. -/
theorem C3_witness :
    notificationBranch ⟨false, true, true⟩ "070404021e01".data =
      NotificationBranch.running :=
  (C3_running_prefix_classification ⟨false, true, true⟩ "070404021e01".data
    (by decide)).2 rfl rfl

/-- C5: the running callback is never invoked by `_notification_callback` —
for every set of registered callbacks and every decrypted message, the emitted
events contain no running event (the invocation is commented out in the
source, so no RunningUpdate is ever delivered). -/
theorem C5_running_callback_never_invoked (cb : RegisteredCallbacks)
    (decrypted_message_bytes : List Nat) (b : Bool) :
    CallbackEvent.running b ∉ notification_callback cb decrypted_message_bytes := by
  simp only [notification_callback]
  split
  · simp
  · split
    · simp
    · split
      · simp
      · simp

/-- `SETTING_DISCONNECT_TIME` (motionblinds_ble/const.py), in seconds. -/
def SETTING_DISCONNECT_TIME : Int := 15

/-- The disconnect-timer state of a `MotionDevice`: whether `_disconnect_timer`
is set, and the scheduled `_disconnect_time` in milliseconds.
`_disconnect_time` is only read under a `_disconnect_timer is not None` guard,
so `timer_set = false` with an arbitrary time models the initial
`None`/`None` state. -/
structure DisconnectTimerState where
  timer_set : Bool
  disconnect_time : Int
deriving DecidableEq

/-- The state at construction: `_disconnect_timer = None`,
`_disconnect_time = None`. -/
def initialTimerState : DisconnectTimerState := ⟨false, 0⟩

/-- `MotionDevice.refresh_disconnect_timer` (device.py), with the ambient
millisecond clock `now_ms` (`time_ns() // 1e6`) passed explicitly:
`new_disconnect_time = now_ms + timeout * 1e3`; if not forced and a timer is
set whose `_disconnect_time` exceeds `new_disconnect_time`, return with the
state unchanged; otherwise cancel the old timer and schedule the disconnect at
the new time. -/
def refresh_disconnect_timer (st : DisconnectTimerState) (now_ms : Int)
    (timeout : Option Int := none) (force : Bool := false) :
    DisconnectTimerState :=
  let timeout := timeout.getD SETTING_DISCONNECT_TIME
  let new_disconnect_time := now_ms + timeout * 1000
  if ¬force ∧ st.timer_set ∧ st.disconnect_time > new_disconnect_time then
    st
  else
    ⟨true, new_disconnect_time⟩

/-- Unfolding equation for `refresh_disconnect_timer` with an explicit
timeout. -/
theorem refresh_disconnect_timer_eq (st : DisconnectTimerState)
    (now_ms timeout : Int) (force : Bool) :
    refresh_disconnect_timer st now_ms (some timeout) force =
      if ¬force ∧ st.timer_set ∧ st.disconnect_time > now_ms + timeout * 1000
      then st else ⟨true, now_ms + timeout * 1000⟩ := rfl

/-- C9: `refresh_disconnect_timer` never shrinks the scheduled deadline unless
forced: with a timer scheduled later than `now + timeout` and `force` false
the call is a no-op, otherwise the timer is rescheduled to `now + timeout`;
in particular calling with timeout 5 then timeout 30 yields a deadline 30 s
out, while 30 then 5 (within the 25 s where the old deadline is still further
away) leaves the 30 s deadline in place. -/
theorem C9_refresh_never_shrinks (st : DisconnectTimerState)
    (now_ms timeout : Int) (force : Bool) :
    (¬force ∧ st.timer_set ∧ st.disconnect_time > now_ms + timeout * 1000 →
      refresh_disconnect_timer st now_ms (some timeout) force = st) ∧
    (¬(¬force ∧ st.timer_set ∧ st.disconnect_time > now_ms + timeout * 1000) →
      refresh_disconnect_timer st now_ms (some timeout) force =
        ⟨true, now_ms + timeout * 1000⟩) ∧
    (∀ n0 n1 : Int, n0 ≤ n1 →
      (refresh_disconnect_timer
        (refresh_disconnect_timer initialTimerState n0 (some 5) false)
        n1 (some 30) false).disconnect_time = n1 + 30000) ∧
    (∀ n0 n1 : Int, n0 ≤ n1 → n1 < n0 + 25000 →
      refresh_disconnect_timer
        (refresh_disconnect_timer initialTimerState n0 (some 30) false)
        n1 (some 5) false =
        refresh_disconnect_timer initialTimerState n0 (some 30) false) := by
  refine ⟨?_, ?_, ?_, ?_⟩
  · intro h
    rw [refresh_disconnect_timer_eq, if_pos h]
  · intro h
    rw [refresh_disconnect_timer_eq, if_neg h]
  · intro n0 n1 h01
    have hinner : refresh_disconnect_timer initialTimerState n0 (some 5) false =
        ⟨true, n0 + 5 * 1000⟩ := by
      rw [refresh_disconnect_timer_eq]
      simp [initialTimerState]
    rw [hinner, refresh_disconnect_timer_eq, if_neg]
    · show n1 + 30 * 1000 = n1 + 30000
      norm_num
    · rintro ⟨-, -, hgt⟩
      revert hgt
      show ¬(n0 + 5 * 1000 > n1 + 30 * 1000)
      omega
  · intro n0 n1 h01 hlt
    have hinner : refresh_disconnect_timer initialTimerState n0 (some 30) false =
        ⟨true, n0 + 30 * 1000⟩ := by
      rw [refresh_disconnect_timer_eq]
      simp [initialTimerState]
    rw [hinner, refresh_disconnect_timer_eq, if_pos]
    refine ⟨by simp, rfl, ?_⟩
    show n0 + 30 * 1000 > n1 + 5 * 1000
    omega

/-- Witness for C9: concrete no-op (existing deadline 100000 ms, refresh with
timeout 5 s at time 0), concrete reschedule from the initial state, and the
two concrete 5/30 scenarios at times 0 and 1. -/
theorem C9_witness :
    refresh_disconnect_timer ⟨true, 100000⟩ 0 (some 5) false = ⟨true, 100000⟩ ∧
    refresh_disconnect_timer initialTimerState 0 (some 5) false = ⟨true, 5000⟩ ∧
    (refresh_disconnect_timer
      (refresh_disconnect_timer initialTimerState 0 (some 5) false)
      1 (some 30) false).disconnect_time = 30001 ∧
    refresh_disconnect_timer
      (refresh_disconnect_timer initialTimerState 0 (some 30) false)
      1 (some 5) false = refresh_disconnect_timer initialTimerState 0 (some 30) false :=
  ⟨(C9_refresh_never_shrinks ⟨true, 100000⟩ 0 5 false).1 (by norm_num),
   (C9_refresh_never_shrinks initialTimerState 0 5 false).2.1 (by simp [initialTimerState]),
   (C9_refresh_never_shrinks initialTimerState 0 5 false).2.2.1 0 1 (by norm_num),
   (C9_refresh_never_shrinks initialTimerState 0 5 false).2.2.2 0 1 (by norm_num) (by norm_num)⟩

/-- `SETTING_DOUBLE_CLICK_TIME` (const.py), in milliseconds. -/
def SETTING_DOUBLE_CLICK_TIME : Int := 500

/-- A command sent to the motor by `async_stop_cover`. -/
inductive StopCommand
  | stop
  | favorite
deriving DecidableEq

/-- `GenericBlind.async_stop_cover` (cover.py), one invocation at millisecond
time `current_stop_click_time`: if `_last_stop_click_time` is truthy (not
`None`, and not `0` — Python truthiness) and the elapsed time is below
`SETTING_DOUBLE_CLICK_TIME`, send FAVORITE and reset `_last_stop_click_time`
to `None`; otherwise send STOP and record the click time.  Returns the command
sent and the new `_last_stop_click_time`. -/
def async_stop_cover (last_stop_click_time : Option Int)
    (current_stop_click_time : Int) : StopCommand × Option Int :=
  match last_stop_click_time with
  | some t =>
    if t ≠ 0 ∧ current_stop_click_time - t < SETTING_DOUBLE_CLICK_TIME then
      (.favorite, none)
    else
      (.stop, some current_stop_click_time)
  | none => (.stop, some current_stop_click_time)

/-- A sequence of `async_stop_cover` invocations at the given millisecond
times, starting from `_last_stop_click_time = None`; returns the commands sent
to the device, in order. -/
def stop_clicks (times : List Int) : List StopCommand :=
  (times.foldl
    (fun (acc : List StopCommand × Option Int) t =>
      let r := async_stop_cover acc.2 t
      (acc.1 ++ [r.1], r.2))
    ([], none)).1

/-- C7 counterexample: two `stop()` calls 100 ms apart (at 1000 and 1100)
issue a STOP for the first click and a FAVORITE for the second — not "exactly
one FAVORITE and zero STOP commands" as claimed. -/
theorem C7_counterexample :
    stop_clicks [1000, 1100] = [.stop, .favorite] ∧
    ¬((stop_clicks [1000, 1100]).count .stop = 0 ∧
      (stop_clicks [1000, 1100]).count .favorite = 1) := by
  decide

/-- C7 (amended): two `stop()` calls within 500 ms issue one STOP (first
click) followed by one FAVORITE (second click); two calls 500 ms or more apart
issue two STOPs; a third rapid call after the FAVORITE issues STOP again, so
exactly two rapid stops fold into one favorite. -/
theorem C7_stop_double_click (t1 t2 t3 : Int) (h1 : t1 ≠ 0) :
    (t2 - t1 < 500 → stop_clicks [t1, t2] = [.stop, .favorite]) ∧
    (¬(t2 - t1 < 500) → stop_clicks [t1, t2] = [.stop, .stop]) ∧
    (t2 - t1 < 500 → stop_clicks [t1, t2, t3] = [.stop, .favorite, .stop]) := by
  refine ⟨?_, ?_, ?_⟩ <;> intro h <;>
    simp [stop_clicks, async_stop_cover, SETTING_DOUBLE_CLICK_TIME, h1, h]

/-- Witness for C7 at concrete click times 1000/1100 (rapid), 1000/1600
(slow), and 1000/1100/1200 (three rapid clicks). -/
theorem C7_witness :
    stop_clicks [1000, 1100] = [.stop, .favorite] ∧
    stop_clicks [1000, 1600] = [.stop, .stop] ∧
    stop_clicks [1000, 1100, 1200] = [.stop, .favorite, .stop] :=
  ⟨(C7_stop_double_click 1000 1100 0 (by decide)).1 (by decide),
   (C7_stop_double_click 1000 1600 0 (by decide)).2.1 (by decide),
   (C7_stop_double_click 1000 1100 1200 (by decide)).2.2 (by decide)⟩

namespace MotionCommandType

/-- `MotionCommandType.PERCENT` (motionblinds_ble/const.py). -/
def PERCENT : String := "05020440"

/-- `MotionCommandType.ANGLE` (motionblinds_ble/const.py). -/
def ANGLE : String := "05020420"

end MotionCommandType

/-- Python `hex(i)[2:]` for an arbitrary int: for negative `i`, `hex` yields
`-0x...`, so slicing off two characters keeps a leading `x`. -/
def pyHexSlice (i : Int) : String :=
  if i < 0 then "x" ++ toHexString i.natAbs else toHexString i.toNat

/-- `MotionDevice.percentage` (device.py):
`assert not percentage < 0 and not percentage > 100` runs before the command
prefix is built, so an out-of-range argument raises `AssertionError` before
any transport write; `none` models that rejection, `some` the command prefix
handed to `_send_command`. -/
def percentage (percentage : Int) : Option String :=
  if percentage < 0 ∨ percentage > 100 then
    none
  else
    some (MotionCommandType.PERCENT ++ zfill (pyHexSlice percentage) 2 ++ "00")

/-- `MotionDevice.percentage_tilt` (device.py): computes
`angle = round(180 * percentage / 100)` and builds the command prefix with no
validation of the percentage or of the resulting angle; the command is always
handed to `_send_command`, so a transport write is always attempted. -/
def percentage_tilt (percentage : Int) : Option String :=
  let angle := percent_to_angle percentage
  some (MotionCommandType.ANGLE ++ "00" ++ zfill (pyHexSlice angle) 2)

/-- C8 counterexample: `percentage_tilt 150` produces the out-of-domain angle
270 (outside [0, 180]) yet still builds a command and proceeds to the
transport write — the tilt angle is not validated before writing. -/
theorem C8_counterexample :
    percent_to_angle 150 = 270 ∧ ¬((270 : Int) ≤ 180) ∧
    (percentage_tilt 150).isSome = true := by
  decide

/-- C8 (amended): `percentage` rejects exactly the arguments outside [0, 100]
before any write occurs, but `percentage_tilt` performs no validation at all:
every argument (even one producing an angle outside [0, 180]) results in an
attempted transport write. -/
theorem C8_parameter_validation :
    (∀ p : Int, percentage p = none ↔ (p < 0 ∨ p > 100)) ∧
    (∀ p : Int, (percentage_tilt p).isSome = true) := by
  constructor
  · intro p
    by_cases h : p < 0 ∨ p > 100
    · simp [percentage, h]
    · simp [percentage, h]
  · intro p
    simp [percentage_tilt]

/-- The numeric value of a lowercase hex character, as consumed by Python
`bytes.fromhex` (the source only ever feeds it lowercase hex). -/
def hexCharVal? (c : Char) : Option Nat :=
  "0123456789abcdef".data.findIdx? (fun x => x == c)

/-- Python `bytes.fromhex` on a lowercase hex string: two characters per byte,
`none` (a raised `ValueError`) on an odd-length or non-hex input. -/
def bytesFromHex : List Char → Option (List Nat)
  | [] => some []
  | [_] => none
  | c1 :: c2 :: rest => do
    let hi ← hexCharVal? c1
    let lo ← hexCharVal? c2
    let bs ← bytesFromHex rest
    some ((hi * 16 + lo) :: bs)

/-- `Crypto.Util.Padding.unpad` with `AES.block_size = 16` (PKCS#7): the last
byte gives the padding length, which must be between 1 and 16, no longer than
the data, with every padding byte equal to it; `.error` models the raised
`ValueError` otherwise. -/
def unpad (data : List Nat) : Except Unit (List Nat) :=
  match data.getLast? with
  | none => .error ()
  | some k =>
    if 1 ≤ k ∧ k ≤ 16 ∧ k ≤ data.length ∧
        (data.drop (data.length - k)).all (fun b => b == k) then
      .ok (data.take (data.length - k))
    else
      .error ()

/-- `MotionCrypt.decrypt` (crypt.py): parses the ciphertext hex into bytes
(`bytes.fromhex`), applies the AES-ECB block transform — taken as the
parameter `block_decrypt`, since the cipher itself is outside the model; AES
raises when the input length is not a multiple of the 16-byte block size —
then unpads and re-encodes as hex.  `.error` models a raised exception. -/
def decrypt (block_decrypt : List Nat → List Nat) (cipheredtext_hex : List Char) :
    Except Unit (List Char) :=
  match bytesFromHex cipheredtext_hex with
  | none => .error ()
  | some cipheredtext_bytes =>
    if cipheredtext_bytes.length % 16 = 0 then
      match unpad (block_decrypt cipheredtext_bytes) with
      | .error e => .error e
      | .ok plaintext_bytes => .ok (bytesToHexChars plaintext_bytes)
    else
      .error ()

/-- `MotionDevice._notification_callback` (device.py) including the decryption
step, on the raw notification bytes `byte_array`: the body contains no
`try`/`except`, so any failure inside `MotionCrypt.decrypt` or in the
`fromhex` re-parse escapes the callback to the transport layer; `.error`
models such an exception propagating out of the callback. -/
def notification_callback_raw (block_decrypt : List Nat → List Nat)
    (cb : RegisteredCallbacks) (byte_array : List Nat) :
    Except Unit (List CallbackEvent) :=
  match decrypt block_decrypt (bytesToHexChars byte_array) with
  | .error e => .error e
  | .ok decrypted_message =>
    match bytesFromHex decrypted_message with
    | none => .error ()
    | some decrypted_message_bytes =>
      .ok (notification_callback cb decrypted_message_bytes)

/-- For a byte value, `format_hex` produces exactly its two hex digits. -/
theorem format_hex_pair : ∀ b : Nat, b < 256 →
    (format_hex b 2).data = [hexDigit (b / 16), hexDigit (b % 16)] := by
  decide

/-- `hexCharVal?` inverts `hexDigit` on digit values. -/
theorem hexCharVal_hexDigit : ∀ d : Nat, d < 16 →
    hexCharVal? (hexDigit d) = some d := by
  decide

/-- `bytes.fromhex` inverts `bytearray.hex()` on lists of byte values. -/
theorem bytesFromHex_bytesToHexChars (bs : List Nat) (h : ∀ b ∈ bs, b < 256) :
    bytesFromHex (bytesToHexChars bs) = some bs := by
  induction bs with
  | nil => rfl
  | cons b rest ih =>
    have hb : b < 256 := h b (by simp)
    have hrest := ih (fun x hx => h x (by simp [hx]))
    show bytesFromHex (((b :: rest).map fun x => (format_hex x 2).data).flatten)
      = some (b :: rest)
    rw [List.map_cons, List.flatten_cons, format_hex_pair b hb]
    simp only [List.cons_append, List.nil_append]
    rw [bytesFromHex]
    rw [hexCharVal_hexDigit _ (by omega), hexCharVal_hexDigit _ (by omega)]
    rw [show (((rest.map fun x => (format_hex x 2).data).flatten)) =
      bytesToHexChars rest from rfl, hrest]
    show some ((b / 16 * 16 + b % 16) :: rest) = some (b :: rest)
    rw [show b / 16 * 16 + b % 16 = b by omega]

/-- C6 counterexample: the one-byte raw notification `0x01` (hex length 2,
not a multiple of the AES block size) makes the decrypt step raise, and with
no exception handling in `_notification_callback` the error escapes to the
transport layer instead of being dropped locally. -/
theorem C6_counterexample :
    notification_callback_raw id ⟨true, true, true⟩ [1] = .error () := rfl

/-- C6 (amended): a malformed raw notification is not dropped locally: the
callback has no exception handling, so for every raw byte array whose length
is not a multiple of the 16-byte AES block size, the decrypt failure
propagates out of the notification callback. -/
theorem C6_malformed_notification_raises (block_decrypt : List Nat → List Nat)
    (cb : RegisteredCallbacks) (byte_array : List Nat)
    (hbytes : ∀ b ∈ byte_array, b < 256)
    (hlen : byte_array.length % 16 ≠ 0) :
    notification_callback_raw block_decrypt cb byte_array = .error () := by
  have hd : decrypt block_decrypt (bytesToHexChars byte_array) = .error () := by
    unfold decrypt
    rw [bytesFromHex_bytesToHexChars byte_array hbytes]
    exact if_neg hlen
  unfold notification_callback_raw
  rw [hd]

/-- Witness for C6 at the concrete malformed three-byte raw notification
`[0, 1, 2]`. -/
theorem C6_witness :
    notification_callback_raw id ⟨false, false, false⟩ [0, 1, 2] = .error () :=
  C6_malformed_notification_raises id ⟨false, false, false⟩ [0, 1, 2]
    (by decide) (by decide)

/-- The retry loop of `MotionDevice._send_command` (device.py).  `tries` is
`number_of_tries`; `remaining` is `max_attempts - tries`, passed separately so
the recursion is structural (the kernel can evaluate it): `remaining = 0`
models the loop guard `number_of_tries < SETTING_MAX_COMMAND_ATTEMPTS`
failing, upon which the function falls through and implicitly returns `None`.
Each iteration writes `cmd` — the command encrypted once, before the loop —
and returns `True` on success; on a write failure (`BleakError`) the source
re-raises when `number_of_tries == max_attempts` (unreachable, since the loop
only runs while `number_of_tries < max_attempts`) and otherwise increments the
counter and retries.  Returns the list of written commands and the outcome:
`.error` a propagated exception, `.ok (some b)` an explicit `return b`,
`.ok none` the implicit `None`. -/
def send_command_loop (cmd : List Char) (write_ok : Nat → Bool)
    (max_attempts : Nat) : (tries remaining : Nat) →
    List (List Char) × Except Unit (Option Bool)
  | _, 0 => ([], .ok none)
  | tries, remaining + 1 =>
    if write_ok tries then
      ([cmd], .ok (some true))
    else if tries = max_attempts then
      ([cmd], .error ())
    else
      let r := send_command_loop cmd write_ok max_attempts (tries + 1) remaining
      (cmd :: r.1, r.2)

/-- `MotionDevice._send_command` (device.py).  `connected` is the result of
`await self.connect()`; `get_time_at i` is the timestamp `MotionCrypt.get_time`
would return at its `i`-th invocation (the source invokes it exactly once,
before the retry loop); `write_ok i` tells whether the `i`-th
`write_gatt_char` succeeds; `max_attempts` is `SETTING_MAX_COMMAND_ATTEMPTS`
(imported by device.py from motionblinds_ble/const.py, which does not define
it, so it is kept as a parameter and the results hold for every value).
Commands are compared on their plaintext `command_prefix + get_time()`:
AES-ECB encryption is deterministic, so two written ciphertexts are equal
exactly when their plaintexts are. -/
def send_command (connected : Bool) ( command_prefix : List Char)
    (get_time_at : Nat → List Char) (write_ok : Nat → Bool)
    (max_attempts : Nat) : List (List Char) × Except Unit (Option Bool) :=
  if !connected then
    ([], .ok (some false))
  else
    let command := command_prefix ++ get_time_at 0
    send_command_loop command write_ok max_attempts 0 max_attempts

/-- The re-raise branch of the retry loop is dead code: started with
`tries + remaining ≤ max_attempts`, the loop never propagates an exception. -/
theorem send_command_loop_no_raise (cmd : List Char) (write_ok : Nat → Bool)
    (max_attempts : Nat) :
    ∀ remaining tries, tries + remaining ≤ max_attempts →
      (send_command_loop cmd write_ok max_attempts tries remaining).2 ≠
        .error () := by
  intro remaining
  induction remaining with
  | zero =>
    intro tries _ hc
    exact Except.noConfusion hc
  | succ remaining ih =>
    intro tries hle
    simp only [send_command_loop]
    split
    · exact fun hc => Except.noConfusion hc
    · rw [if_neg (by omega)]
      exact ih (tries + 1) (by omega)

/-- C4: evaluating `_send_command` at a failing input — connected, STOP
command prefix `03020303`, two allowed attempts, clock delivering timestamp
`aa` first and `bb` afterwards, every transport write failing: the code
writes the *identical* command twice (the timestamp is not regenerated for
the retry, although a second `get_time()` call would have returned the
different value `bb`) and, once the attempts are exhausted, implicitly
returns `None` — no `CommandFailed`-like exception is raised (the re-raise
branch is unreachable). -/
theorem C4_send_command_failing_input :
    send_command true "03020303".data
      (fun i => if i = 0 then "aa".data else "bb".data) (fun _ => false) 2 =
      (["03020303aa".data, "03020303aa".data], .ok none) ∧
    "03020303aa".data ≠ "03020303bb".data := by
  constructor
  · rfl
  · decide

/-- The connection-deduplication state of `MotionDevice` read and written by
`_connect_if_not_connecting` (device.py): whether `_connection_task` is a
live task, the recorded `_last_connection_caller_time`, and how many
connection tasks have been created (each created task runs `self._connect()`,
i.e. one underlying transport connect attempt). -/
structure ConnectDedupState where
  connection_task : Bool
  last_connection_caller_time : Option Nat
  tasks_created : Nat
deriving DecidableEq

/-- The state at construction: `_connection_task = None`,
`_last_connection_caller_time = None`, no task created yet. -/
def initialConnectState : ConnectDedupState := ⟨false, none, 0⟩

/-- The synchronous prelude of `_connect_if_not_connecting` (device.py) run by
a caller admitted with `time_ns()` value `this_connection_caller_time`: it
records its timestamp in `_last_connection_caller_time` and creates the
shared connection task if none is in flight.  On the single-threaded event
loop every admitted caller runs this prelude to completion before suspending
on `await self._connection_task`. -/
def admit_caller (st : ConnectDedupState) (this_connection_caller_time : Nat) :
    ConnectDedupState :=
  let st := { st with
              last_connection_caller_time := some this_connection_caller_time }
  if st.connection_task then
    st
  else
    { st with connection_task := true, tasks_created := st.tasks_created + 1 }

/-- All concurrent callers admitted, in timestamp order, before the shared
connection task resolves. -/
def admit_all (times : List Nat) : ConnectDedupState :=
  times.foldl admit_caller initialConnectState

/-- The value returned by `_connect_if_not_connecting` to the caller admitted
at `this_connection_caller_time` once the shared connect task resolves with
`True`: `is_last_caller`, i.e. whether the recorded
`_last_connection_caller_time` equals its own admission timestamp. -/
def caller_result (st : ConnectDedupState)
    (this_connection_caller_time : Nat) : Bool :=
  st.last_connection_caller_time == some this_connection_caller_time

theorem admit_caller_last (st : ConnectDedupState) (t : Nat) :
    (admit_caller st t).last_connection_caller_time = some t := by
  unfold admit_caller
  by_cases h : st.connection_task <;> simp [h]

theorem admit_caller_of_task (st : ConnectDedupState) (t : Nat)
    (h : st.connection_task = true) :
    admit_caller st t = { st with last_connection_caller_time := some t } := by
  unfold admit_caller
  simp [h]

/-- Once a connection task is in flight, further admissions keep it in flight
and create no new task. -/
theorem foldl_admit_preserves (l : List Nat) :
    ∀ st : ConnectDedupState, st.connection_task = true →
      (l.foldl admit_caller st).connection_task = true ∧
      (l.foldl admit_caller st).tasks_created = st.tasks_created := by
  induction l with
  | nil => exact fun st h => ⟨h, rfl⟩
  | cons t rest ih =>
    intro st h
    rw [List.foldl_cons, admit_caller_of_task st t h]
    exact ih _ h

/-- A nonempty admission sequence creates exactly one connection task. -/
theorem admit_all_tasks_created (times : List Nat) (h : times ≠ []) :
    (admit_all times).tasks_created = 1 := by
  match times with
  | [] => exact absurd rfl h
  | t0 :: rest =>
    rw [admit_all, List.foldl_cons]
    have h0 : admit_caller initialConnectState t0 = ⟨true, some t0, 1⟩ := rfl
    rw [h0]
    exact (foldl_admit_preserves rest ⟨true, some t0, 1⟩ rfl).2

/-- C1: when `N ≥ 1` callers are admitted concurrently while Disconnected —
all running the synchronous prelude of `_connect_if_not_connecting` before
the shared connect task resolves, the last caller carrying the latest
`time_ns()` timestamp — exactly one connection task is created (one
underlying transport connect attempt), and upon resolution only the caller
whose admission timestamp equals the most recently recorded one (the last
caller) receives `True`; every earlier joiner receives `False`. -/
theorem C1_last_caller_wins (earlier : List Nat) (tN : Nat)
    (hlt : ∀ t ∈ earlier, t < tN) :
    (admit_all (earlier ++ [tN])).tasks_created = 1 ∧
    (earlier ++ [tN]).map (caller_result (admit_all (earlier ++ [tN]))) =
      List.replicate earlier.length false ++ [true] := by
  have hlast : (admit_all (earlier ++ [tN])).last_connection_caller_time =
      some tN := by
    rw [admit_all, List.foldl_append, List.foldl_cons, List.foldl_nil]
    exact admit_caller_last _ _
  refine ⟨admit_all_tasks_created _ (by simp), ?_⟩
  rw [List.map_append]
  have h2 : earlier.map (caller_result (admit_all (earlier ++ [tN]))) =
      List.replicate earlier.length false := by
    rw [List.eq_replicate_iff]
    refine ⟨by simp, ?_⟩
    intro b hb
    simp only [List.mem_map] at hb
    obtain ⟨t, ht, rfl⟩ := hb
    have htlt := hlt t ht
    simp only [caller_result, hlast]
    rw [beq_eq_false_iff_ne]
    simp only [ne_eq, Option.some.injEq]
    omega
  have h3 : [tN].map (caller_result (admit_all (earlier ++ [tN]))) = [true] := by
    simp [caller_result, hlast]
  rw [h2, h3]

/-- Witness for C1: three callers admitted at times 1, 2, 3 — one task
created, and only the last caller (timestamp 3) receives `True`. -/
theorem C1_witness :
    (admit_all ([1, 2] ++ [3])).tasks_created = 1 ∧
    ([1, 2] ++ [3]).map (caller_result (admit_all ([1, 2] ++ [3]))) =
      List.replicate 2 false ++ [true] :=
  C1_last_caller_wins [1, 2] 3 (by decide)

end MotionBlinds
